import Mathlib

/-!
# Verification of the terminal-mcp core (session manager, tool proxy, recorder)

A shallow embedding, in Lean 4, of the terminal-mcp repository's core
components, together with theorems settling the specification claims.

Embedded source files:
* `src/terminal/session.ts` — the `TerminalSession` class (PTY + headless
  emulator wrapper; the PTY and the VT100 emulator themselves are external
  collaborators and are represented at their interface boundary).
* `src/terminal/manager.ts` — the `TerminalManager` class (lazy session
  construction, command surface, recording wiring, disposal).
* `src/client.ts` — the MCP client mode (proxy client: pending-request map,
  `sendRequest`, socket data handler, `connectToSocket` error classification).
* The `Recorder` / `RecordingManager` implementation is not part of the
  provided sources (only its type declarations and call sites are), so the
  recording engine is modelled from the spec where needed; each such
  definition is marked `Modelled from the spec:` in its doc comment.

The asynchronous JavaScript event loop is single-threaded and cooperative:
every synchronous run-to-completion segment between two `await`/callback
boundaries is one atomic step.  Interleavings of concurrent async calls are
therefore modelled as sequences of such atomic steps over explicit state.
-/

/-! ## Errors of the terminal layer -/

/-- Error kinds thrown by `TerminalManager.getSession` ("Session not
initialized") and by the `TerminalSession` operations ("Terminal session has
been disposed"). -/
inductive TermError where
  | notInitialized
  | sessionDisposed
deriving Repr, DecidableEq

/-- The exact message strings attached to each error in the source. -/
def TermError.message : TermError → String
  | .notInitialized => "Session not initialized. Call initSession() first."
  | .sessionDisposed => "Terminal session has been disposed"

/-! ## The headless terminal emulator and the PTY (collaborator boundary)

`session.ts` delegates VT100 emulation to `@xterm/headless` and process I/O
to `node-pty`.  Both are out of scope per the spec; they are represented by
their observable interface state: the emulator by its rendered line buffer,
viewport base, cursor and dimensions, the PTY by the chunks written to it
and a killed flag.  Escape-sequence parsing (how a fed chunk changes the
rendered buffer) is the collaborator's job and is kept abstract: feeding a
chunk records it in `fed`. -/

/-- Interface state of the `@xterm/headless` `Terminal` collaborator. -/
structure EmulatorState where
  cols : Nat
  rows : Nat
  /-- Chunks fed via `terminal.write(data)` (escape parsing is external). -/
  fed : List String
  /-- Rendered buffer lines, scrollback included (`buffer.active`). -/
  bufferLines : List String
  /-- `buffer.baseY`: index of the first viewport line. -/
  baseY : Nat
  cursorX : Nat
  cursorY : Nat
  /-- Set by `terminal.dispose()`. -/
  emuDisposed : Bool
deriving Repr, DecidableEq

/-- `terminal.write(data)`: feed one chunk of PTY output to the emulator. -/
def EmulatorState.writeChunk (e : EmulatorState) (data : String) : EmulatorState :=
  { e with fed := e.fed ++ [data] }

/-- `terminal.clear()`: collaborator operation; clears scrollback and
viewport content. -/
def EmulatorState.clearBuf (e : EmulatorState) : EmulatorState :=
  { e with bufferLines := [], baseY := 0 }

/-- `terminal.resize(cols, rows)`. -/
def EmulatorState.resizeEmu (e : EmulatorState) (cols rows : Nat) : EmulatorState :=
  { e with cols := cols, rows := rows }

/-- `terminal.dispose()`. -/
def EmulatorState.disposeEmu (e : EmulatorState) : EmulatorState :=
  { e with emuDisposed := true }

/-- Interface state of the `node-pty` child-process collaborator. -/
structure PtyState where
  /-- Chunks written via `ptyProcess.write(data)`. -/
  written : List String
  cols : Nat
  rows : Nat
  /-- Set by `ptyProcess.kill()`. -/
  killed : Bool
deriving Repr, DecidableEq

/-! ## TerminalSession (src/terminal/session.ts) -/

/-- Identity of a subscriber registered on a session's listener lists.  The
manager registers the recording fan-out (`initSession`), the interactive
loop registers a stdout pipe; further subscribers are numbered. -/
inductive ListenerId where
  | recordingFanOut
  | stdoutPipe
  | custom (n : Nat)
deriving Repr, DecidableEq

/-- Result shape of `takeScreenshot()`. -/
structure ScreenshotResult where
  content : String
  cursorX : Nat
  cursorY : Nat
  cols : Nat
  rows : Nat
deriving Repr, DecidableEq

/-- State of one `TerminalSession`: the PTY and emulator collaborators, the
`disposed` flag, the subscriber lists, and the temp rc-file bookkeeping
(`rcFile` / `zdotdir` paths plus whether the files still exist on disk). -/
structure TerminalSession where
  ptyProcess : PtyState
  terminal : EmulatorState
  disposed : Bool
  dataListeners : List ListenerId
  resizeListeners : List ListenerId
  exitListeners : List ListenerId
  rcFile : Option String
  zdotdir : Option String
  rcFileOnDisk : Bool
  zdotdirOnDisk : Bool
deriving Repr, DecidableEq

namespace TerminalSession

/-- `isActive()`: `!this.disposed`. -/
def isActive (s : TerminalSession) : Bool := !s.disposed

/-- `onData(listener)`: push onto `dataListeners`. -/
def onData (s : TerminalSession) (l : ListenerId) : TerminalSession :=
  { s with dataListeners := s.dataListeners ++ [l] }

/-- `onResize(listener)` — subscription to the session's resize stream.
Modelled from the spec: the method body is not in the provided session
source (only its caller, `manager.ts:105`, is); per spec §4.1 the manager
"subscribes a recording fan-out listener to the Session's output and resize
streams", so the subscription appends to a resize-listener list exactly as
`onData` appends to the data-listener list. -/
def onResize (s : TerminalSession) (l : ListenerId) : TerminalSession :=
  { s with resizeListeners := s.resizeListeners ++ [l] }

/-- `onExit(listener)`: push onto `exitListeners`. -/
def onExit (s : TerminalSession) (l : ListenerId) : TerminalSession :=
  { s with exitListeners := s.exitListeners ++ [l] }

/-- `write(data)`: throws when disposed, else forwards to the PTY. -/
def write (s : TerminalSession) (data : String) :
    Except TermError TerminalSession :=
  if s.disposed then .error .sessionDisposed
  else .ok { s with
    ptyProcess := { s.ptyProcess with written := s.ptyProcess.written ++ [data] } }

/-- The trailing-blank-line trimming loop of `getContent()`:
`while (lines.length > 0 && lines[lines.length-1].trim() === "") lines.pop()`. -/
def trimTrailingBlank (lines : List String) : List String :=
  (lines.reverse.dropWhile (fun l => l.trim = "")).reverse

/-- `getContent()`: throws when disposed, else joins the whole buffer
(scrollback included) with trailing blank lines trimmed. -/
def getContent (s : TerminalSession) : Except TermError String :=
  if s.disposed then .error .sessionDisposed
  else .ok (String.intercalate "\n" (trimTrailingBlank s.terminal.bufferLines))

/-- `getVisibleContent()`: throws when disposed, else joins the `rows`
buffer lines starting at `baseY` (missing lines are skipped). -/
def getVisibleContent (s : TerminalSession) : Except TermError String :=
  if s.disposed then .error .sessionDisposed
  else .ok (String.intercalate "\n"
    ((s.terminal.bufferLines.drop s.terminal.baseY).take s.terminal.rows))

/-- `takeScreenshot()`: throws when disposed, else returns visible content,
cursor position and dimensions. -/
def takeScreenshot (s : TerminalSession) : Except TermError ScreenshotResult :=
  if s.disposed then .error .sessionDisposed
  else .ok
    { content := String.intercalate "\n"
        ((s.terminal.bufferLines.drop s.terminal.baseY).take s.terminal.rows)
      cursorX := s.terminal.cursorX
      cursorY := s.terminal.cursorY
      cols := s.terminal.cols
      rows := s.terminal.rows }

/-- `clear()`: throws when disposed, else `terminal.clear()`. -/
def clear (s : TerminalSession) : Except TermError TerminalSession :=
  if s.disposed then .error .sessionDisposed
  else .ok { s with terminal := s.terminal.clearBuf }

/-- `resize(cols, rows)`: throws when disposed, else resizes the emulator
and the PTY. -/
def resize (s : TerminalSession) (cols rows : Nat) :
    Except TermError TerminalSession :=
  if s.disposed then .error .sessionDisposed
  else .ok { s with
    terminal := s.terminal.resizeEmu cols rows
    ptyProcess := { s.ptyProcess with cols := cols, rows := rows } }

/-- `getDimensions()`. -/
def getDimensions (s : TerminalSession) : Nat × Nat :=
  (s.terminal.cols, s.terminal.rows)

/-- The state a caller observes after an operation that may throw: on
success the new state, on a thrown error the object as it was (the guard
throws before any mutation). -/
def afterOp (s : TerminalSession) (r : Except TermError TerminalSession) :
    TerminalSession :=
  match r with
  | .ok s' => s'
  | .error _ => s

/-- The `ptyProcess.onData` handler installed by the constructor: if the
session is not disposed, feed the chunk to the emulator and notify every
data listener; if disposed, drop the chunk.  Returns the new state and the
list of listeners invoked. -/
def handlePtyData (s : TerminalSession) (data : String) :
    TerminalSession × List ListenerId :=
  if s.disposed then (s, [])
  else ({ s with terminal := s.terminal.writeChunk data }, s.dataListeners)

/-- The `ptyProcess.onExit` handler installed by the constructor: marks the
session disposed, then notifies every exit listener.  Returns the new state
and the listeners invoked. -/
def handlePtyExit (s : TerminalSession) (_exitCode : Int) :
    TerminalSession × List ListenerId :=
  ({ s with disposed := true }, s.exitListeners)

/-- `dispose()`: when not yet disposed, set the flag, kill the PTY, dispose
the emulator, and delete the temp rc file / zdotdir (errors ignored); when
already disposed, do nothing. -/
def dispose (s : TerminalSession) : TerminalSession :=
  if s.disposed then s
  else
    { s with
      disposed := true
      ptyProcess := { s.ptyProcess with killed := true }
      terminal := s.terminal.disposeEmu
      rcFileOnDisk := if s.rcFile.isSome then false else s.rcFileOnDisk
      zdotdirOnDisk := if s.zdotdir.isSome then false else s.zdotdirOnDisk }

end TerminalSession

/-! ## Recorder / RecordingManager

The recording engine's implementation file is not among the provided
sources; only its type surface (`RecordingMode`, `RecordingFormat`,
`RecordingMetadata`) and its call sites (`manager.ts`, `index.ts`) are.
The engine is therefore modelled from the spec (§3, §4.2), with each
modelled definition saying so.  Wall-clock time is modelled as rational
seconds, passed explicitly to every timed operation. -/

/-- `RecordingMode` (declared in `manager.ts` / `index.ts`):
`'always' | 'on-failure' | 'off'`. -/
inductive RecordingMode where
  | always
  | onFailure
  | off
deriving Repr, DecidableEq

/-- `RecordingFormat`: `'v2'` (asciicast v2) is the only format. -/
inductive RecordingFormat where
  | v2
deriving Repr, DecidableEq

/-- Recorder lifecycle state.  Modelled from the spec: §4.2's state machine
`idle → recording → finalized` (the transient `finalizing` stage has no
observable intermediate state and collapses into the transition). -/
inductive RecState where
  | idle
  | recording
  | finalized
deriving Repr, DecidableEq

/-- One timestamped event of the log body: output chunk or resize.
Modelled from the spec: §3 "ordered sequence of timestamped events: output
chunk, resize"; `time` is the stored offset from start, after the
idle-time clamp. -/
inductive RecEventKind where
  | output (data : String)
  | resize (cols rows : Nat)
deriving Repr, DecidableEq

/-- A stored log event: clamped offset from start plus payload. -/
structure RecEvent where
  time : ℚ
  kind : RecEventKind
deriving Repr, DecidableEq

/-- Recording header.  Modelled from the spec: §4.2 "records a header
(dimensions, environment snapshot, start time)". -/
structure RecHeader where
  cols : Nat
  rows : Nat
  /-- Environment snapshot; a value may be absent (`process.env` lookup). -/
  env : List (String × Option String)
  startTime : ℚ
deriving Repr, DecidableEq

/-- `RecordingMetadata` (type declared in the recording module's surface and
consumed in `index.ts`): `{id, saved, path?, duration}`. -/
structure RecordingMetadata where
  id : Nat
  saved : Bool
  path : Option String
  duration : ℚ
deriving Repr, DecidableEq

/-- Per-recorder configuration, as passed by
`TerminalManager.startAutoRecording` / `RecordingManager`. -/
structure RecorderConfig where
  mode : RecordingMode
  outputDir : String
  format : RecordingFormat
  idleTimeLimit : ℚ
  maxDuration : ℚ
  inactivityTimeout : ℚ
deriving Repr, DecidableEq

/-- One Recorder.  Modelled from the spec: §3's Recording attributes —
id, mode/dir/format, timing policy, state, event log, start time,
last-activity time, pending auto-stop timers (represented by their
deadlines), plus whether a (partial) artifact file currently exists on
disk (the log is streamed). -/
structure Recorder where
  id : Nat
  config : RecorderConfig
  state : RecState
  header : Option RecHeader
  events : List RecEvent
  startTime : ℚ
  /-- Real wall-clock time of the last recorded event (or start). -/
  lastEventRealTime : ℚ
  /-- Stored (clamped) offset of the last recorded event. -/
  lastStoredTime : ℚ
  /-- Deadline of the armed max-duration timer, when armed. -/
  maxDurationDeadline : Option ℚ
  /-- Deadline of the armed inactivity timer, when armed. -/
  inactivityDeadline : Option ℚ
  /-- Whether a (possibly partial) artifact file exists on disk. -/
  fileOnDisk : Bool
deriving Repr, DecidableEq

namespace Recorder

/-- The artifact path of a recorder, inside its output directory. -/
def filePath (r : Recorder) : String :=
  r.config.outputDir ++ "/recording-" ++ toString r.id ++ ".cast"

/-- `start(cols, rows, env)` at wall-clock `now`.  Modelled from the spec:
§4.2 — records the header and arms the max-duration and inactivity timers;
mode `off` is "never started in the first place (policy checked at
`start`)". -/
def start (r : Recorder) (cols rows : Nat) (env : List (String × Option String))
    (now : ℚ) : Recorder :=
  if r.config.mode = .off then r
  else if r.state ≠ .idle then r
  else
    { r with
      state := .recording
      header := some { cols := cols, rows := rows, env := env, startTime := now }
      startTime := now
      lastEventRealTime := now
      lastStoredTime := 0
      maxDurationDeadline := some (now + r.config.maxDuration)
      inactivityDeadline := some (now + r.config.inactivityTimeout) }

/-- `recordOutput(bytes)` at wall-clock `now`.  Modelled from the spec:
§4.2 — appends a timestamped event whose inter-event gap is clamped to at
most `idleTimeLimit` at write time, resets the inactivity timer, streams
the event to the artifact file; a no-op unless in `recording` state. -/
def recordOutput (r : Recorder) (now : ℚ) (data : String) : Recorder :=
  if r.state ≠ .recording then r
  else
    let gap := min (now - r.lastEventRealTime) r.config.idleTimeLimit
    let t := r.lastStoredTime + gap
    { r with
      events := r.events ++ [{ time := t, kind := .output data }]
      lastEventRealTime := now
      lastStoredTime := t
      inactivityDeadline := some (now + r.config.inactivityTimeout)
      fileOnDisk := true }

/-- `recordResize(cols, rows)` at wall-clock `now`.  Modelled from the
spec: §4.2 — same write-time clamp and no-op rule as `recordOutput`. -/
def recordResize (r : Recorder) (now : ℚ) (cols rows : Nat) : Recorder :=
  if r.state ≠ .recording then r
  else
    let gap := min (now - r.lastEventRealTime) r.config.idleTimeLimit
    let t := r.lastStoredTime + gap
    { r with
      events := r.events ++ [{ time := t, kind := .resize cols rows }]
      lastEventRealTime := now
      lastStoredTime := t
      inactivityDeadline := some (now + r.config.inactivityTimeout)
      fileOnDisk := true }

/-- `finalize(exitCode)` at wall-clock `now`.  Modelled from the spec:
§4.2 — cancels all timers, transitions to `finalized`, and decides
persistence: `always` writes, `on-failure` writes iff `exitCode != 0`
(otherwise deletes any partial file and exposes no path), `off` never
saves; returns `{id, saved, path?, duration}`.  Already-finalized
recorders are immutable: finalizing again returns unsaved metadata without
touching the stored state. -/
def finalize (r : Recorder) (exitCode : Int) (now : ℚ) :
    Recorder × RecordingMetadata :=
  if r.state = .finalized then
    (r, { id := r.id, saved := false, path := none, duration := 0 })
  else
    let duration := now - r.startTime
    let save : Bool :=
      match r.config.mode with
      | .always => true
      | .onFailure => exitCode ≠ 0
      | .off => false
    let r' :=
      { r with
        state := .finalized
        maxDurationDeadline := none
        inactivityDeadline := none
        fileOnDisk := save }
    (r', { id := r.id, saved := save
           path := if save then some r.filePath else none
           duration := duration })

end Recorder

/-- The RecordingManager: base configuration (from the manager's
constructor), the owned recorders, and the next fresh id.  Modelled from
the spec: §2/§3 — "owns zero-or-more concurrent Recorders, fans session
events out to all active recorders"; ids are opaque and unique per manager
instance (modelled as consecutive naturals). -/
structure RecordingManager where
  config : RecorderConfig
  recorders : List Recorder
  nextId : Nat
deriving Repr, DecidableEq

namespace RecordingManager

/-- `createRecording(cfg)`: allocate a fresh idle Recorder with the given
configuration.  Modelled from the spec: §4.2 — "Creating a new named
Recording while another is already active is permitted (independent
ids)". -/
def createRecording (rm : RecordingManager) (cfg : RecorderConfig) :
    Recorder × RecordingManager :=
  let r : Recorder :=
    { id := rm.nextId
      config := cfg
      state := .idle
      header := none
      events := []
      startTime := 0
      lastEventRealTime := 0
      lastStoredTime := 0
      maxDurationDeadline := none
      inactivityDeadline := none
      fileOnDisk := false }
  (r, { rm with recorders := rm.recorders ++ [r], nextId := rm.nextId + 1 })

/-- Replace the stored copy of a recorder after an operation on it. -/
def updateRecorder (rm : RecordingManager) (r : Recorder) : RecordingManager :=
  { rm with recorders := rm.recorders.map (fun x => if x.id = r.id then r else x) }

/-- `recordOutputToAll(data)`: fan one output event out to every recorder
(non-recording ones ignore it).  Modelled from the spec: §3 —
"RecordingManager fans every session event to the full set of
currently-recording Recordings in event order". -/
def recordOutputToAll (rm : RecordingManager) (now : ℚ) (data : String) :
    RecordingManager :=
  { rm with recorders := rm.recorders.map (fun r => r.recordOutput now data) }

/-- `recordResizeToAll(cols, rows)`: fan one resize event out to every
recorder.  Modelled from the spec: §3 (same fan-out rule). -/
def recordResizeToAll (rm : RecordingManager) (now : ℚ) (cols rows : Nat) :
    RecordingManager :=
  { rm with recorders := rm.recorders.map (fun r => r.recordResize now cols rows) }

/-- `finalizeAll(exitCode)`: finalize every recorder with the same exit
code and collect the metadata.  Modelled from the spec: §4.2. -/
def finalizeAll (rm : RecordingManager) (exitCode : Int) (now : ℚ) :
    RecordingManager × List RecordingMetadata :=
  let pairs := rm.recorders.map (fun r => r.finalize exitCode now)
  ({ rm with recorders := pairs.map Prod.fst }, pairs.map Prod.snd)

/-- The number of recorders currently in `recording` state. -/
def activeCount (rm : RecordingManager) : Nat :=
  (rm.recorders.filter (fun r => r.state = .recording)).length

end RecordingManager

/-! ## TerminalManager (src/terminal/manager.ts) -/

/-- `TerminalManagerOptions` (extends `TerminalSessionOptions`): the fields
the embedded code paths consult.  `processEnvSHELL` models the ambient
`process.env.SHELL` read by `startAutoRecording`. -/
structure TerminalManagerOptions where
  cols : Option Nat := none
  rows : Option Nat := none
  shell : Option String := none
  record : Option RecordingMode := none
  recordDir : Option String := none
  recordFormat : Option RecordingFormat := none
  idleTimeLimit : Option ℚ := none
  maxDuration : Option ℚ := none
  inactivityTimeout : Option ℚ := none
  processEnvSHELL : Option String := none
deriving Repr, DecidableEq

/-- The default recording directory (`getDefaultRecordDir()` in
`utils/platform.ts`, documented in `index.ts` as
`~/.local/state/terminal-mcp/recordings`). -/
def getDefaultRecordDir : String := "~/.local/state/terminal-mcp/recordings"

/-- State of one `TerminalManager`: the owned session (only ever the
current one), the in-flight construction promise (by id), the options, the
recording manager and the auto-recording id. -/
structure TerminalManager where
  session : Option TerminalSession
  sessionPromise : Option Nat
  options : TerminalManagerOptions
  recordingManager : RecordingManager
  autoRecordingId : Option Nat
deriving Repr, DecidableEq

namespace TerminalManager

/-- The `TerminalManager` constructor: no session, no in-flight promise,
and a `RecordingManager` configured with the option values or their
constructor defaults (`'off'`, default dir, `'v2'`, 2 s, 3600 s, 600 s). -/
def create (options : TerminalManagerOptions) : TerminalManager :=
  { session := none
    sessionPromise := none
    options := options
    recordingManager :=
      { config :=
          { mode := options.record.getD .off
            outputDir := options.recordDir.getD getDefaultRecordDir
            format := options.recordFormat.getD .v2
            idleTimeLimit := options.idleTimeLimit.getD 2
            maxDuration := options.maxDuration.getD 3600
            inactivityTimeout := options.inactivityTimeout.getD 600 }
        recorders := []
        nextId := 0 }
    autoRecordingId := none }

/-- The `TerminalSession` constructor (`TerminalSession.create` resolves to
a session built this way): defaults `cols = 120`, `rows = 40`, fresh
emulator and PTY, not disposed, empty listener lists.  The shell-rc-file
generation of `setupShellPrompt` is out of scope per spec §1; the fresh
session is modelled with no temp rc artifacts tracked. -/
def createSession (options : TerminalManagerOptions) : TerminalSession :=
  let cols := options.cols.getD 120
  let rows := options.rows.getD 40
  { ptyProcess := { written := [], cols := cols, rows := rows, killed := false }
    terminal :=
      { cols := cols, rows := rows, fed := [], bufferLines := []
        baseY := 0, cursorX := 0, cursorY := 0, emuDisposed := false }
    disposed := false
    dataListeners := []
    resizeListeners := []
    exitListeners := []
    rcFile := none
    zdotdir := none
    rcFileOnDisk := false
    zdotdirOnDisk := false }

/-- `getCurrentSession()`: the session if it exists and is active, else
`null`. -/
def getCurrentSession (m : TerminalManager) : Option TerminalSession :=
  match m.session with
  | some s => if s.isActive then some s else none
  | none => none

/-- The deprecated synchronous accessor `getSession()`: throws
`NotInitialized` unless a session exists and is active. -/
def getSession (m : TerminalManager) : Except TermError TerminalSession :=
  match m.session with
  | some s => if s.isActive then .ok s else .error .notInitialized
  | none => .error .notInitialized

/-- `hasActiveSession()`. -/
def hasActiveSession (m : TerminalManager) : Bool :=
  match m.session with
  | some s => s.isActive
  | none => false

/-- The overall effect of `await getSessionAsync()` once the construction
completes (the fine-grained interleaving semantics of its synchronous
prefix is `getSessionAsyncEntry` below): return the active session if one
exists, otherwise construct one, store it, and clear the promise slot. -/
def ensureSession (m : TerminalManager) : TerminalManager × TerminalSession :=
  match m.session with
  | some s =>
    if s.isActive then (m, s)
    else
      let s' := createSession m.options
      ({ m with session := some s', sessionPromise := none }, s')
  | none =>
    let s' := createSession m.options
    ({ m with session := some s', sessionPromise := none }, s')

/-- `startAutoRecording()`: a no-op when `autoRecordingId` is already set;
otherwise create a recorder from the CLI options (same defaults as the
constructor), start it with the current session's dimensions (falling back
to 120×40) and the `{SHELL, TERM}` environment snapshot, and remember its
id. -/
def startAutoRecording (m : TerminalManager) (now : ℚ) : TerminalManager :=
  if m.autoRecordingId.isSome then m
  else
    let cfg : RecorderConfig :=
      { mode := m.options.record.getD .off
        outputDir := m.options.recordDir.getD getDefaultRecordDir
        format := m.options.recordFormat.getD .v2
        idleTimeLimit := m.options.idleTimeLimit.getD 2
        maxDuration := m.options.maxDuration.getD 3600
        inactivityTimeout := m.options.inactivityTimeout.getD 600 }
    let (recorder, rm) := m.recordingManager.createRecording cfg
    let dims :=
      match m.session with
      | some s => s.getDimensions
      | none => (120, 40)
    let env : List (String × Option String) :=
      [("SHELL", match m.options.shell with
                 | some sh => some sh
                 | none => m.options.processEnvSHELL),
       ("TERM", some "xterm-256color")]
    let recorder := recorder.start dims.1 dims.2 env now
    { m with
      recordingManager := rm.updateRecorder recorder
      autoRecordingId := some recorder.id }

/-- `initSession()`: ensure the session, subscribe the recording fan-out
listeners to its output and resize streams, then start the auto-recording
when the CLI recording mode is set and not `'off'`. -/
def initSession (m : TerminalManager) (now : ℚ) : TerminalManager :=
  let (m, s) := m.ensureSession
  let s := s.onData .recordingFanOut
  let s := s.onResize .recordingFanOut
  let m := { m with session := some s }
  match m.options.record with
  | some mode => if mode ≠ .off then m.startAutoRecording now else m
  | none => m

/-- `write(data)`: `this.getSession().write(data)`. -/
def write (m : TerminalManager) (data : String) :
    Except TermError TerminalManager := do
  let s ← m.getSession
  let s' ← s.write data
  return { m with session := some s' }

/-- `getContent()`: `this.getSession().getContent()`. -/
def getContent (m : TerminalManager) : Except TermError String := do
  let s ← m.getSession
  s.getContent

/-- `getVisibleContent()`. -/
def getVisibleContent (m : TerminalManager) : Except TermError String := do
  let s ← m.getSession
  s.getVisibleContent

/-- `takeScreenshot()`. -/
def takeScreenshot (m : TerminalManager) : Except TermError ScreenshotResult := do
  let s ← m.getSession
  s.takeScreenshot

/-- `clear()`. -/
def clear (m : TerminalManager) : Except TermError TerminalManager := do
  let s ← m.getSession
  let s' ← s.clear
  return { m with session := some s' }

/-- `resize(cols, rows)`. -/
def resize (m : TerminalManager) (cols rows : Nat) :
    Except TermError TerminalManager := do
  let s ← m.getSession
  let s' ← s.resize cols rows
  return { m with session := some s' }

/-- `getDimensions()`: `this.getSession().getDimensions()`. -/
def getDimensions (m : TerminalManager) : Except TermError (Nat × Nat) := do
  let s ← m.getSession
  return s.getDimensions

/-- `dispose()`: when a session is held, dispose it and drop the
reference; otherwise do nothing. -/
def dispose (m : TerminalManager) : TerminalManager :=
  match m.session with
  | some s =>
    let _ := s.dispose
    { m with session := none }
  | none => m

end TerminalManager

/-! ## Interleaving semantics of `getSessionAsync` (manager.ts:48-70)

In Node's event loop every caller of `getSessionAsync()` runs the method's
synchronous prefix — the `this.session` check, the `this.sessionPromise`
check, and (when both are null) the assignment of a fresh construction
promise to `this.sessionPromise` — atomically, before yielding at the
`await`.  An interleaving of N concurrent calls is therefore a sequence of
these atomic entry steps, possibly interleaved with the completion of the
in-flight construction.  `LazyInit` is the relevant projection of the
manager's state; session and promise identities are naturals. -/

structure LazyInit where
  /-- `this.session`, when it exists and `isActive()` (the inactive case is
  identical to `null` for the accessor's first check). -/
  session : Option Nat
  /-- `this.sessionPromise`: the in-flight construction promise, by id. -/
  sessionPromise : Option Nat
  /-- Fresh-promise allocator. -/
  nextPromiseId : Nat
  /-- How many `TerminalSession.create(...)` constructions have been
  started. -/
  constructionsStarted : Nat
deriving Repr, DecidableEq

/-- What one caller's entry step commits it to: return the cached session
immediately, or await a construction promise (its own or the in-flight
one). -/
inductive LazyOutcome where
  | cached (sid : Nat)
  | awaits (pid : Nat)
deriving Repr, DecidableEq

/-- The atomic synchronous prefix of `getSessionAsync()`: return the active
session if present; else await the in-flight promise if present; else
start exactly one construction, publish its promise, and await it. -/
def getSessionAsyncEntry (st : LazyInit) : LazyInit × LazyOutcome :=
  match st.session with
  | some sid => (st, .cached sid)
  | none =>
    match st.sessionPromise with
    | some pid => (st, .awaits pid)
    | none =>
      let pid := st.nextPromiseId
      ({ st with
          sessionPromise := some pid
          nextPromiseId := pid + 1
          constructionsStarted := st.constructionsStarted + 1 },
       .awaits pid)

/-- Run the entry steps of `n` concurrent callers, none of which is
interleaved with the construction's completion (the fully concurrent
interleaving); since each entry step is atomic, every interleaving of the
N calls is this sequence.  Returns the final state and each caller's
outcome, in arrival order. -/
def runEntries (st : LazyInit) : Nat → LazyInit × List LazyOutcome
  | 0 => (st, [])
  | n + 1 =>
    let (st', o) := getSessionAsyncEntry st
    let (st'', os) := runEntries st' n
    (st'', o :: os)

/-- Completion of the in-flight construction promise `pid` with session
`sid` (the body after the `await` plus the `finally` block): store the
session, clear the promise slot.  Every caller awaiting `pid` then
receives `sid`. -/
def resolveConstruction (st : LazyInit) (sid : Nat) : LazyInit :=
  { st with session := some sid, sessionPromise := none }

/-- The session instance a caller finally receives, given the map from
promise ids to the sessions they resolved to. -/
def receivedSession (resolution : Nat → Nat) : LazyOutcome → Nat
  | .cached sid => sid
  | .awaits pid => resolution pid

/-! ## Proxy client (src/client.ts)

`startMcpClientMode` keeps a monotonically increasing `requestId`, a
`pendingRequests` map from id to the `{resolve, reject}` pair of the future
returned by `sendRequest`, and a line buffer on the socket.  The model
keeps the pending map as the list of its keys and records every settlement
(resolve or reject) of a future in an append-only log, so "settled at most
once" is a statement about the log. -/

/-- One parsed line of the wire protocol, server→client direction:
`{id, result?, error?:{message}}`. -/
structure SocketResponse where
  id : Nat
  result : Option String
  error : Option String
deriving Repr, DecidableEq

/-- How a pending future was settled. -/
inductive Settlement where
  | resolved (result : Option String)
  | rejected (message : String)
deriving Repr, DecidableEq

/-- Client-side protocol state: the request-id counter, the keys of the
`pendingRequests` map, and the append-only settlement log `(id, how)`. -/
structure ClientState where
  requestId : Nat
  pending : List Nat
  settledLog : List (Nat × Settlement)
deriving Repr, DecidableEq

namespace ClientState

/-- The initial client state after connecting. -/
def init : ClientState := { requestId := 0, pending := [], settledLog := [] }

/-- `sendRequest(method, params)`: allocate `id = ++requestId`, register
the pending entry, then write the request line; if the socket write
reports an error, delete the entry and reject the future immediately.
`writeError` is the error message the socket write callback reports, when
it fails.  Returns the new state and the allocated id. -/
def sendRequest (st : ClientState) (writeError : Option String) :
    ClientState × Nat :=
  let id := st.requestId + 1
  let st' := { st with requestId := id, pending := st.pending ++ [id] }
  match writeError with
  | some msg =>
    ({ st' with
        pending := st'.pending.erase id
        settledLog := st'.settledLog ++ [(id, .rejected msg)] }, id)
  | none => (st', id)

/-- The per-line body of the socket `data` handler, applied to one parsed
response: look the id up in `pendingRequests`; if present, delete it and
settle the future (reject when `error` is present, else resolve with
`result`); if absent, the line is ignored. -/
def handleResponse (st : ClientState) (resp : SocketResponse) : ClientState :=
  if resp.id ∈ st.pending then
    { st with
      pending := st.pending.erase resp.id
      settledLog := st.settledLog ++
        [(resp.id,
          match resp.error with
          | some msg => .rejected msg
          | none => .resolved resp.result)] }
  else st

/-- A line that fails `JSON.parse` is ignored (`catch { /* ignore */ }`);
a parsed line goes to `handleResponse`. -/
def handleLine (st : ClientState) (parsed : Option SocketResponse) : ClientState :=
  match parsed with
  | some resp => st.handleResponse resp
  | none => st

/-- Process a whole sequence of incoming response lines in order. -/
def processResponses (st : ClientState) : List SocketResponse → ClientState
  | [] => st
  | r :: rs => (st.handleResponse r).processResponses rs

/-- How many settlements the log records for the future with id `k`. -/
def settleCount (st : ClientState) (k : Nat) : Nat :=
  (st.settledLog.filter (fun e => e.1 = k)).length

end ClientState

/-! ## Connection failure classification and exit behavior (src/client.ts) -/

/-- The user-visible classification of a `connectToSocket` failure. -/
inductive ConnectFailure where
  /-- `ENOENT`: no endpoint file — "no session found". -/
  | noSessionFound (socketPath : String)
  /-- `ECONNREFUSED`: endpoint exists but refuses — "session may have
  crashed". -/
  | connectionRefused (socketPath : String)
  /-- Any other error code is passed through unclassified. -/
  | other (code : String)
deriving Repr, DecidableEq

/-- The `socket.on("error", ...)` branch of `connectToSocket`: classify the
error by its `code`. -/
def classifyConnectError (socketPath : String) (code : String) : ConnectFailure :=
  if code = "ENOENT" then .noSessionFound socketPath
  else if code = "ECONNREFUSED" then .connectionRefused socketPath
  else .other code

/-- The message each classified failure carries (the exact strings built in
`connectToSocket`). -/
def connectFailureMessage : ConnectFailure → String
  | .noSessionFound p =>
      "No tmcp session found at " ++ p ++ ".\n" ++
      "Start an interactive session first by running: tmcp"
  | .connectionRefused p =>
      "Connection refused to " ++ p ++ ".\n" ++
      "The tmcp session may have crashed. Try restarting it."
  | .other code => code

/-- `process.exit(1)` in the client's socket `error` handler. -/
def socketErrorExitCode : Nat := 1

/-- `process.exit(1)` in the client's socket `close` handler. -/
def socketCloseExitCode : Nat := 1

/-- `process.exit(1)` in `main().catch(...)` (`index.ts:477-480`), which
receives the rejection of a failed `connectToSocket`. -/
def connectFailureExitCode : Nat := 1

/-! ## Theorems -/

/-- Helper for C1: once a construction is in flight (`sessionPromise` set,
no active session), every further entry step returns the same state and
awaits that same promise. -/
theorem runEntries_inflight (st : LazyInit) (pid : Nat)
    (hs : st.session = none) (hp : st.sessionPromise = some pid) (n : Nat) :
    runEntries st n = (st, List.replicate n (.awaits pid)) := by
  induction n with
  | zero => simp [runEntries]
  | succ n ih =>
    simp [runEntries, getSessionAsyncEntry, hs, hp, ih, List.replicate]

/-- C1: for every interleaving of `n ≥ 1` concurrent `getSessionAsync()`
calls starting with no active session and no in-flight construction,
exactly one session construction is started, every caller awaits the same
construction promise, and hence — whatever session that promise resolves
to — every caller receives the same session instance.  A caller arriving
while the construction is in flight awaits it rather than starting a
second one (that is the inductive step of the interleaving). -/
theorem getSessionAsync_single_construction (st : LazyInit) (n : Nat)
    (hs : st.session = none) (hp : st.sessionPromise = none) (hn : 1 ≤ n) :
    (runEntries st n).1.constructionsStarted = st.constructionsStarted + 1
    ∧ (runEntries st n).2 = List.replicate n (.awaits st.nextPromiseId)
    ∧ ∀ resolution : Nat → Nat, ∀ o ∈ (runEntries st n).2,
        receivedSession resolution o = resolution st.nextPromiseId := by
  obtain ⟨m, rfl⟩ : ∃ m, n = m + 1 := ⟨n - 1, (Nat.succ_pred_eq_of_pos hn).symm⟩
  have hentry : getSessionAsyncEntry st =
      ({ st with
          sessionPromise := some st.nextPromiseId
          nextPromiseId := st.nextPromiseId + 1
          constructionsStarted := st.constructionsStarted + 1 },
       .awaits st.nextPromiseId) := by
    simp [getSessionAsyncEntry, hs, hp]
  have hrest := runEntries_inflight
    { st with
        sessionPromise := some st.nextPromiseId
        nextPromiseId := st.nextPromiseId + 1
        constructionsStarted := st.constructionsStarted + 1 }
    st.nextPromiseId (by simp [hs]) rfl m
  have hrun : runEntries st (m + 1) =
      ({ st with
          sessionPromise := some st.nextPromiseId
          nextPromiseId := st.nextPromiseId + 1
          constructionsStarted := st.constructionsStarted + 1 },
       LazyOutcome.awaits st.nextPromiseId ::
         List.replicate m (.awaits st.nextPromiseId)) := by
    simp [runEntries, hentry, hrest]
  refine ⟨by simp [hrun], by simp [hrun, List.replicate], ?_⟩
  intro resolution o ho
  rw [hrun] at ho
  simp only [List.mem_cons, List.mem_replicate] at ho
  rcases ho with h | ⟨-, h⟩ <;> simp [h, receivedSession]

/-- C1 witness: three concurrent callers from the fresh state share one
construction and one promise. -/
theorem getSessionAsync_single_construction_witness :
    (runEntries ⟨none, none, 0, 0⟩ 3).1.constructionsStarted = 0 + 1
    ∧ (runEntries ⟨none, none, 0, 0⟩ 3).2 = List.replicate 3 (.awaits 0) :=
  ⟨(getSessionAsync_single_construction ⟨none, none, 0, 0⟩ 3 rfl rfl (by decide)).1,
   (getSessionAsync_single_construction ⟨none, none, 0, 0⟩ 3 rfl rfl (by decide)).2.1⟩

/-- C2: on a manager with no session yet, each of the six command
operations fails with the `NotInitialized` error (they all go through the
deprecated synchronous accessor `getSession()`), while the async path
never does: `ensureSession` from the same state constructs a session, and
the deprecated accessor — and hence every command — succeeds on the
resulting manager. -/
theorem manager_commands_notInitialized_only_sync (m : TerminalManager)
    (data : String) (cols rows : Nat) (h : m.session = none) :
    m.write data = .error .notInitialized
    ∧ m.getContent = .error .notInitialized
    ∧ m.getVisibleContent = .error .notInitialized
    ∧ m.takeScreenshot = .error .notInitialized
    ∧ m.clear = .error .notInitialized
    ∧ m.resize cols rows = .error .notInitialized
    ∧ (m.ensureSession).1.getSession = .ok (TerminalManager.createSession m.options)
    ∧ (m.ensureSession).1.write data ≠ .error .notInitialized := by
  have hget : m.getSession = .error .notInitialized := by
    simp [TerminalManager.getSession, h]
  have hens : (m.ensureSession).1.getSession
      = .ok (TerminalManager.createSession m.options) := by
    simp [TerminalManager.ensureSession, h, TerminalManager.getSession,
      TerminalSession.isActive, TerminalManager.createSession]
  refine ⟨?_, ?_, ?_, ?_, ?_, ?_, hens, ?_⟩
  · simp [TerminalManager.write, hget, bind, Except.bind]
  · simp [TerminalManager.getContent, hget, bind, Except.bind]
  · simp [TerminalManager.getVisibleContent, hget, bind, Except.bind]
  · simp [TerminalManager.takeScreenshot, hget, bind, Except.bind]
  · simp [TerminalManager.clear, hget, bind, Except.bind]
  · simp [TerminalManager.resize, hget, bind, Except.bind]
  · simp [TerminalManager.write, hens, TerminalSession.write,
      TerminalManager.createSession, bind, Except.bind, Functor.map, Except.map,
      pure, Except.pure]

/-- C2 witness: the six commands on a freshly constructed manager all fail
`NotInitialized`, and the ensured path does not. -/
theorem manager_commands_notInitialized_only_sync_witness :
    (TerminalManager.create {}).write "ls" = .error .notInitialized
    ∧ (TerminalManager.create {}).getContent = .error .notInitialized
    ∧ (TerminalManager.create {}).getVisibleContent = .error .notInitialized
    ∧ (TerminalManager.create {}).takeScreenshot = .error .notInitialized
    ∧ (TerminalManager.create {}).clear = .error .notInitialized
    ∧ (TerminalManager.create {}).resize 80 24 = .error .notInitialized
    ∧ ((TerminalManager.create {}).ensureSession).1.getSession
        = .ok (TerminalManager.createSession (TerminalManager.create {}).options)
    ∧ ((TerminalManager.create {}).ensureSession).1.write "ls"
        ≠ .error .notInitialized :=
  manager_commands_notInitialized_only_sync (TerminalManager.create {}) "ls" 80 24 rfl

/-- C7: disposal is idempotent, for the manager and for the session: a
second `dispose()` after a first one is a no-op — it returns normally (the
operations are total, mirroring the absence of any throw in either
`dispose` body) and leaves the state exactly as the first call left it. -/
theorem dispose_idempotent :
    (∀ m : TerminalManager, m.dispose.dispose = m.dispose)
    ∧ (∀ s : TerminalSession, s.dispose.dispose = s.dispose) := by
  constructor
  · intro m
    cases hm : m.session <;> simp [TerminalManager.dispose, hm]
  · intro s
    by_cases hd : s.disposed <;> simp [TerminalSession.dispose, hd]

/-- C8: every session-level operation on a disposed session fails with the
session-disposed error — it is surfaced to the caller, not converted into
a result — and the session state is unchanged by the failed call. -/
theorem session_ops_after_dispose (s : TerminalSession) (data : String)
    (cols rows : Nat) (h : s.disposed = true) :
    s.write data = .error .sessionDisposed
    ∧ s.getContent = .error .sessionDisposed
    ∧ s.getVisibleContent = .error .sessionDisposed
    ∧ s.takeScreenshot = .error .sessionDisposed
    ∧ s.clear = .error .sessionDisposed
    ∧ s.resize cols rows = .error .sessionDisposed
    ∧ s.afterOp (s.write data) = s
    ∧ s.afterOp s.clear = s
    ∧ s.afterOp (s.resize cols rows) = s := by
  simp [TerminalSession.write, TerminalSession.getContent,
    TerminalSession.getVisibleContent, TerminalSession.takeScreenshot,
    TerminalSession.clear, TerminalSession.resize, TerminalSession.afterOp, h]

/-- A concrete fresh session, used by the witnesses below. -/
def sampleSession : TerminalSession :=
  TerminalManager.createSession {}

/-- C8 witness: the six operations on a concrete disposed session all fail
with the session-disposed error and leave the state unchanged. -/
theorem session_ops_after_dispose_witness :
    sampleSession.dispose.write "ls" = .error .sessionDisposed
    ∧ sampleSession.dispose.getContent = .error .sessionDisposed
    ∧ sampleSession.dispose.getVisibleContent = .error .sessionDisposed
    ∧ sampleSession.dispose.takeScreenshot = .error .sessionDisposed
    ∧ sampleSession.dispose.clear = .error .sessionDisposed
    ∧ sampleSession.dispose.resize 80 24 = .error .sessionDisposed
    ∧ sampleSession.dispose.afterOp (sampleSession.dispose.write "ls")
        = sampleSession.dispose
    ∧ sampleSession.dispose.afterOp sampleSession.dispose.clear
        = sampleSession.dispose
    ∧ sampleSession.dispose.afterOp (sampleSession.dispose.resize 80 24)
        = sampleSession.dispose :=
  session_ops_after_dispose sampleSession.dispose "ls" 80 24 (by decide)

/-- C10: once a session is disposed — whether by an explicit `dispose()`
call or because the PTY process exited — the `onData` handler drops PTY
output without feeding the emulator and without invoking any registered
data listener. -/
theorem no_data_listener_after_dispose (s : TerminalSession) (data : String)
    (code : Int) (h : s.disposed = true) :
    s.handlePtyData data = (s, [])
    ∧ s.dispose.handlePtyData data = (s.dispose, [])
    ∧ (s.handlePtyExit code).1.handlePtyData data = ((s.handlePtyExit code).1, []) := by
  refine ⟨?_, ?_, ?_⟩
  · simp [TerminalSession.handlePtyData, h]
  · have hd : s.dispose.disposed = true := by
      by_cases hb : s.disposed <;> simp [TerminalSession.dispose, hb]
    simp [TerminalSession.handlePtyData, hd]
  · simp [TerminalSession.handlePtyData, TerminalSession.handlePtyExit]

/-- C10 witness: a concrete disposed session (with a registered listener)
drops a PTY chunk, both after `dispose()` and after a PTY exit. -/
theorem no_data_listener_after_dispose_witness :
    (sampleSession.onData .stdoutPipe).dispose.handlePtyData "x"
      = ((sampleSession.onData .stdoutPipe).dispose, [])
    ∧ (sampleSession.onData .stdoutPipe).dispose.dispose.handlePtyData "x"
      = ((sampleSession.onData .stdoutPipe).dispose.dispose, [])
    ∧ ((sampleSession.onData .stdoutPipe).dispose.handlePtyExit 0).1.handlePtyData "x"
      = (((sampleSession.onData .stdoutPipe).dispose.handlePtyExit 0).1, []) :=
  no_data_listener_after_dispose ((sampleSession.onData .stdoutPipe).dispose) "x" 0
    (by decide)

/-- C4: finalizing a not-yet-finalized recorder in `on-failure` mode
persists the artifact if and only if the exit code is nonzero; on a zero
exit code the partial file is deleted and the returned metadata exposes no
path. -/
theorem finalize_onFailure_persistence (r : Recorder) (exitCode : Int) (now : ℚ)
    (hmode : r.config.mode = .onFailure) (hstate : r.state ≠ .finalized) :
    (r.finalize exitCode now).1.fileOnDisk = decide (exitCode ≠ 0)
    ∧ (r.finalize exitCode now).2.saved = decide (exitCode ≠ 0)
    ∧ (r.finalize exitCode now).2.path
        = (if exitCode ≠ 0 then some r.filePath else none)
    ∧ (r.finalize exitCode now).1.state = .finalized := by
  by_cases he : exitCode = 0 <;>
    simp [Recorder.finalize, hmode, hstate, he]

/-- A concrete recorder in `recording` state with `on-failure` mode and a
2-second idle-time limit, used by the recorder witnesses. -/
def sampleRecorder : Recorder :=
  { id := 7
    config :=
      { mode := .onFailure
        outputDir := "/tmp/rec"
        format := .v2
        idleTimeLimit := 2
        maxDuration := 3600
        inactivityTimeout := 600 }
    state := .recording
    header := some { cols := 120, rows := 40, env := [], startTime := 10 }
    events := []
    startTime := 10
    lastEventRealTime := 10
    lastStoredTime := 0
    maxDurationDeadline := some 3610
    inactivityDeadline := some 610
    fileOnDisk := true }

/-- C4 witness: finalizing the concrete on-failure recorder with exit code
0 leaves no artifact and no path; with exit code 1 it saves and returns
the path. -/
theorem finalize_onFailure_persistence_witness :
    ((sampleRecorder.finalize 0 20).1.fileOnDisk = decide ((0 : Int) ≠ 0)
      ∧ (sampleRecorder.finalize 0 20).2.saved = decide ((0 : Int) ≠ 0)
      ∧ (sampleRecorder.finalize 0 20).2.path
          = (if (0 : Int) ≠ 0 then some sampleRecorder.filePath else none)
      ∧ (sampleRecorder.finalize 0 20).1.state = .finalized)
    ∧ ((sampleRecorder.finalize 1 20).1.fileOnDisk = decide ((1 : Int) ≠ 0)
      ∧ (sampleRecorder.finalize 1 20).2.saved = decide ((1 : Int) ≠ 0)
      ∧ (sampleRecorder.finalize 1 20).2.path
          = (if (1 : Int) ≠ 0 then some sampleRecorder.filePath else none)
      ∧ (sampleRecorder.finalize 1 20).1.state = .finalized) :=
  ⟨finalize_onFailure_persistence sampleRecorder 0 20 (by decide) (by decide),
   finalize_onFailure_persistence sampleRecorder 1 20 (by decide) (by decide)⟩

/-- C5: when a recording recorder receives an event — output chunk or
resize alike — whose real wall-clock gap since the previous event exceeds
the idle-time limit, the event is stored with an inter-event gap of exactly
the limit — in particular at most the limit — at write time, and the
recorder stays in `recording` state (the clamp never triggers a stop). -/
theorem recordOutput_idle_clamp (r : Recorder) (now : ℚ) (data : String)
    (cols rows : Nat) (hstate : r.state = .recording)
    (hgap : r.config.idleTimeLimit < now - r.lastEventRealTime) :
    ((r.recordOutput now data).lastStoredTime - r.lastStoredTime
        = r.config.idleTimeLimit
      ∧ (r.recordOutput now data).lastStoredTime - r.lastStoredTime
        ≤ r.config.idleTimeLimit
      ∧ (r.recordOutput now data).events
        = r.events ++ [{ time := r.lastStoredTime + r.config.idleTimeLimit,
                         kind := .output data }]
      ∧ (r.recordOutput now data).state = .recording)
    ∧ ((r.recordResize now cols rows).lastStoredTime - r.lastStoredTime
        = r.config.idleTimeLimit
      ∧ (r.recordResize now cols rows).lastStoredTime - r.lastStoredTime
        ≤ r.config.idleTimeLimit
      ∧ (r.recordResize now cols rows).events
        = r.events ++ [{ time := r.lastStoredTime + r.config.idleTimeLimit,
                         kind := .resize cols rows }]
      ∧ (r.recordResize now cols rows).state = .recording) := by
  have hmin : min (now - r.lastEventRealTime) r.config.idleTimeLimit
      = r.config.idleTimeLimit := min_eq_right (le_of_lt hgap)
  refine ⟨⟨?_, ?_, ?_, ?_⟩, ⟨?_, ?_, ?_, ?_⟩⟩ <;>
    simp [Recorder.recordOutput, Recorder.recordResize, hstate, hmin]

/-- C5 witness: an event arriving 5 seconds after the previous one on the
concrete recorder (idle limit 2 s) — whether an output chunk or a resize —
is stored with a 2-second gap and the recorder keeps recording. -/
theorem recordOutput_idle_clamp_witness :
    ((sampleRecorder.recordOutput 15 "hi").lastStoredTime
        - sampleRecorder.lastStoredTime = sampleRecorder.config.idleTimeLimit
      ∧ (sampleRecorder.recordOutput 15 "hi").lastStoredTime
        - sampleRecorder.lastStoredTime ≤ sampleRecorder.config.idleTimeLimit
      ∧ (sampleRecorder.recordOutput 15 "hi").events
        = sampleRecorder.events
          ++ [{ time := sampleRecorder.lastStoredTime
                        + sampleRecorder.config.idleTimeLimit,
                kind := .output "hi" }]
      ∧ (sampleRecorder.recordOutput 15 "hi").state = .recording)
    ∧ ((sampleRecorder.recordResize 15 80 24).lastStoredTime
        - sampleRecorder.lastStoredTime = sampleRecorder.config.idleTimeLimit
      ∧ (sampleRecorder.recordResize 15 80 24).lastStoredTime
        - sampleRecorder.lastStoredTime ≤ sampleRecorder.config.idleTimeLimit
      ∧ (sampleRecorder.recordResize 15 80 24).events
        = sampleRecorder.events
          ++ [{ time := sampleRecorder.lastStoredTime
                        + sampleRecorder.config.idleTimeLimit,
                kind := .resize 80 24 }]
      ∧ (sampleRecorder.recordResize 15 80 24).state = .recording) :=
  recordOutput_idle_clamp sampleRecorder 15 "hi" 80 24 (by decide)
    (by norm_num [sampleRecorder])

/-- Helper for C3: a response whose id is not in the pending map leaves the
client state untouched (the line is ignored). -/
theorem handleResponse_not_pending (st : ClientState) (r : SocketResponse)
    (h : r.id ∉ st.pending) : st.handleResponse r = st := by
  simp [ClientState.handleResponse, h]

/-- Helper for C3: a response addressed to a different id than `K` changes
neither `K`'s settlement count nor `K`'s multiplicity in the pending map. -/
theorem handleResponse_other_id (st : ClientState) (r : SocketResponse) (K : Nat)
    (hne : r.id ≠ K) :
    (st.handleResponse r).settleCount K = st.settleCount K
    ∧ (st.handleResponse r).pending.count K = st.pending.count K := by
  by_cases hmem : r.id ∈ st.pending
  · constructor
    · simp [ClientState.handleResponse, hmem, ClientState.settleCount,
        List.filter_append, hne]
    · simp [ClientState.handleResponse, hmem,
        List.count_erase_of_ne (Ne.symm hne)]
  · simp [ClientState.handleResponse, hmem]

/-- Helper for C3: if `K` is not pending, no suffix of responses can add a
settlement of `K`, and `K` never becomes pending again. -/
theorem processResponses_settleCount_of_not_pending (st : ClientState) (K : Nat)
    (h : K ∉ st.pending) (rs : List SocketResponse) :
    (st.processResponses rs).settleCount K = st.settleCount K := by
  induction rs generalizing st with
  | nil => rfl
  | cons r rs ih =>
    by_cases hK : r.id = K
    · have : st.handleResponse r = st := handleResponse_not_pending st r (hK ▸ h)
      simpa [ClientState.processResponses, this] using ih st h
    · have hco := handleResponse_other_id st r K hK
      have hp : K ∉ (st.handleResponse r).pending := by
        by_cases hmem : r.id ∈ st.pending
        · simp only [ClientState.handleResponse, if_pos hmem]
          exact fun hk => h (List.mem_of_mem_erase hk)
        · simpa [handleResponse_not_pending st r hmem] using h
      simpa [ClientState.processResponses, hco.1] using ih (st.handleResponse r) hp

/-- Helper for C3: from any state in which the id `K` is pending at most
once, any sequence of incoming responses settles `K` at most one more
time. -/
theorem processResponses_settleCount_le (st : ClientState) (K : Nat)
    (h : st.pending.count K ≤ 1) (rs : List SocketResponse) :
    (st.processResponses rs).settleCount K ≤ st.settleCount K + 1 := by
  induction rs generalizing st with
  | nil => simp [ClientState.processResponses]
  | cons r rs ih =>
    by_cases hmem : r.id ∈ st.pending
    · by_cases hK : r.id = K
      · subst hK
        -- the settlement of K: afterwards K is no longer pending
        have hcount : (st.handleResponse r).pending.count r.id = 0 := by
          have h1 : st.pending.count r.id = 1 :=
            Nat.le_antisymm h (List.count_pos_iff.mpr hmem)
          simp [ClientState.handleResponse, hmem, h1]
        have hnp : r.id ∉ (st.handleResponse r).pending :=
          List.not_mem_of_count_eq_zero hcount
        have hrest := processResponses_settleCount_of_not_pending
          (st.handleResponse r) r.id hnp rs
        have hsettle : (st.handleResponse r).settleCount r.id
            = st.settleCount r.id + 1 := by
          simp [ClientState.handleResponse, hmem, ClientState.settleCount,
            List.filter_append]
        simp [ClientState.processResponses, hrest, hsettle]
      · have hco := handleResponse_other_id st r K hK
        have := ih (st.handleResponse r) (hco.2 ▸ h)
        simpa [ClientState.processResponses, hco.1] using this
    · simpa [ClientState.processResponses, handleResponse_not_pending st r hmem]
        using ih st h

/-- C3: the future returned by `sendRequest` is settled at most once.
Ids are self-assigned and strictly increasing (`++requestId`); a failed
socket write rejects the future immediately and removes its pending entry;
a response carrying a pending id settles (rejects on `error`, else
resolves) exactly that future; a response carrying a non-pending —
in particular an already-settled — id is ignored; and across any sequence
of incoming responses a given id gains at most one settlement. -/
theorem sendRequest_single_settlement (st : ClientState) (msg : String)
    (rIn rOut : SocketResponse) (rs : List SocketResponse) (K : Nat)
    (hbound : ∀ k ∈ st.pending, k ≤ st.requestId)
    (hin : rIn.id ∈ st.pending)
    (hout : rOut.id ∉ st.pending)
    (hK : st.pending.count K ≤ 1) :
    (st.sendRequest none).2 = st.requestId + 1
    ∧ (st.sendRequest (some msg)).2 = st.requestId + 1
    ∧ st.requestId < (st.sendRequest none).2
    ∧ (st.sendRequest (some msg)).1.pending = st.pending
    ∧ (st.sendRequest (some msg)).1.settledLog
        = st.settledLog ++ [(st.requestId + 1, .rejected msg)]
    ∧ st.handleResponse rOut = st
    ∧ (st.handleResponse rIn).settledLog
        = st.settledLog ++
          [(rIn.id, match rIn.error with
                    | some m => Settlement.rejected m
                    | none => Settlement.resolved rIn.result)]
    ∧ (st.handleResponse rIn).pending = st.pending.erase rIn.id
    ∧ (st.processResponses rs).settleCount K ≤ st.settleCount K + 1 := by
  have hfresh : st.requestId + 1 ∉ st.pending := fun hmem =>
    absurd (hbound _ hmem) (by omega)
  have herase : (st.pending ++ [st.requestId + 1]).erase (st.requestId + 1)
      = st.pending := by
    rw [List.erase_append_right _ hfresh, List.erase_cons_head]
    simp
  refine ⟨rfl, rfl, by simp [ClientState.sendRequest], ?_, ?_, ?_, ?_, ?_, ?_⟩
  · simp [ClientState.sendRequest, herase]
  · simp [ClientState.sendRequest]
  · exact handleResponse_not_pending st rOut hout
  · simp [ClientState.handleResponse, hin]
  · simp [ClientState.handleResponse, hin]
  · exact processResponses_settleCount_le st K hK rs

/-- C3 witness: on a concrete client state with pending ids 1 and 2, a new
request gets id 3, a failed write rejects it immediately, a response for
pending id 1 rejects it (it carries an error), a response for unknown id 5
is ignored, and two further responses for id 1 settle it at most once
more. -/
theorem sendRequest_single_settlement_witness :
    ((⟨2, [1, 2], []⟩ : ClientState).sendRequest none).2 = 2 + 1
    ∧ ((⟨2, [1, 2], []⟩ : ClientState).sendRequest (some "write failed")).2 = 2 + 1
    ∧ (2 : Nat) < ((⟨2, [1, 2], []⟩ : ClientState).sendRequest none).2
    ∧ ((⟨2, [1, 2], []⟩ : ClientState).sendRequest (some "write failed")).1.pending
        = [1, 2]
    ∧ ((⟨2, [1, 2], []⟩ : ClientState).sendRequest (some "write failed")).1.settledLog
        = [] ++ [(2 + 1, .rejected "write failed")]
    ∧ (⟨2, [1, 2], []⟩ : ClientState).handleResponse ⟨5, none, none⟩
        = (⟨2, [1, 2], []⟩ : ClientState)
    ∧ ((⟨2, [1, 2], []⟩ : ClientState).handleResponse ⟨1, none, some "boom"⟩).settledLog
        = [] ++ [(1, Settlement.rejected "boom")]
    ∧ ((⟨2, [1, 2], []⟩ : ClientState).handleResponse ⟨1, none, some "boom"⟩).pending
        = [1, 2].erase 1
    ∧ ((⟨2, [1, 2], []⟩ : ClientState).processResponses
          [⟨1, none, none⟩, ⟨1, none, none⟩]).settleCount 1
        ≤ (⟨2, [1, 2], []⟩ : ClientState).settleCount 1 + 1 :=
  sendRequest_single_settlement ⟨2, [1, 2], []⟩ "write failed"
    ⟨1, none, some "boom"⟩ ⟨5, none, none⟩
    [⟨1, none, none⟩, ⟨1, none, none⟩] 1
    (by decide) (by decide) (by decide) (by decide)

/-- C9: a connection failure is classified into exactly the two causes the
code distinguishes — `ENOENT` (endpoint absent: "no session found") and
`ECONNREFUSED` ("session may have crashed") — every other code is passed
through unclassified; and the client process exits non-zero on a failed
connection, a socket error, or a socket close, rather than hanging. -/
theorem connect_failure_classification (p code : String)
    (h1 : code ≠ "ENOENT") (h2 : code ≠ "ECONNREFUSED") :
    classifyConnectError p "ENOENT" = .noSessionFound p
    ∧ classifyConnectError p "ECONNREFUSED" = .connectionRefused p
    ∧ classifyConnectError p code = .other code
    ∧ connectFailureMessage (.noSessionFound p)
        = "No tmcp session found at " ++ p ++ ".\n"
          ++ "Start an interactive session first by running: tmcp"
    ∧ connectFailureMessage (.connectionRefused p)
        = "Connection refused to " ++ p ++ ".\n"
          ++ "The tmcp session may have crashed. Try restarting it."
    ∧ connectFailureExitCode ≠ 0
    ∧ socketErrorExitCode ≠ 0
    ∧ socketCloseExitCode ≠ 0 := by
  refine ⟨by simp [classifyConnectError], by simp [classifyConnectError],
    by simp [classifyConnectError, h1, h2], ?_, ?_, by decide, by decide, by decide⟩
  · simp [connectFailureMessage]
  · simp [connectFailureMessage]

/-- C9 witness: the classification at the default socket path, with
`EACCES` as a representative unclassified code. -/
theorem connect_failure_classification_witness :
    classifyConnectError "/tmp/terminal-mcp.sock" "ENOENT"
        = .noSessionFound "/tmp/terminal-mcp.sock"
    ∧ classifyConnectError "/tmp/terminal-mcp.sock" "ECONNREFUSED"
        = .connectionRefused "/tmp/terminal-mcp.sock"
    ∧ classifyConnectError "/tmp/terminal-mcp.sock" "EACCES" = .other "EACCES"
    ∧ connectFailureMessage (.noSessionFound "/tmp/terminal-mcp.sock")
        = "No tmcp session found at " ++ "/tmp/terminal-mcp.sock" ++ ".\n"
          ++ "Start an interactive session first by running: tmcp"
    ∧ connectFailureMessage (.connectionRefused "/tmp/terminal-mcp.sock")
        = "Connection refused to " ++ "/tmp/terminal-mcp.sock" ++ ".\n"
          ++ "The tmcp session may have crashed. Try restarting it."
    ∧ connectFailureExitCode ≠ 0
    ∧ socketErrorExitCode ≠ 0
    ∧ socketCloseExitCode ≠ 0 :=
  connect_failure_classification "/tmp/terminal-mcp.sock" "EACCES"
    (by decide) (by decide)

/-- C6: on a manager constructed with a CLI recording mode other than
`off`, `initSession()` subscribes the recording fan-out listeners to the
session's output and resize streams and then starts exactly one
auto-recording, whose header carries the session's current dimensions and
the `{SHELL, TERM}` environment snapshot; running `initSession()` again
does not start a second auto-recording. -/
theorem initSession_single_auto_recording (opts : TerminalManagerOptions)
    (mode : RecordingMode) (now now2 : ℚ)
    (hrec : opts.record = some mode) (hmode : mode ≠ .off) :
    ((TerminalManager.create opts).initSession now).recordingManager.activeCount = 1
    ∧ ((TerminalManager.create opts).initSession now).autoRecordingId = some 0
    ∧ ((TerminalManager.create opts).initSession now).session
        = some (((TerminalManager.createSession opts).onData
            .recordingFanOut).onResize .recordingFanOut)
    ∧ ((TerminalManager.create opts).initSession
          now).recordingManager.recorders.map Recorder.state = [.recording]
    ∧ ((TerminalManager.create opts).initSession
          now).recordingManager.recorders.map Recorder.header
        = [some { cols := opts.cols.getD 120, rows := opts.rows.getD 40,
                  env := [("SHELL", match opts.shell with
                                    | some sh => some sh
                                    | none => opts.processEnvSHELL),
                          ("TERM", some "xterm-256color")],
                  startTime := now }]
    ∧ (((TerminalManager.create opts).initSession now).initSession
          now2).recordingManager.activeCount = 1 := by
  simp [TerminalManager.create, TerminalManager.initSession,
    TerminalManager.ensureSession, TerminalManager.createSession,
    TerminalManager.startAutoRecording, TerminalSession.onData,
    TerminalSession.onResize, TerminalSession.isActive,
    TerminalSession.getDimensions, RecordingManager.createRecording,
    RecordingManager.updateRecorder, RecordingManager.activeCount,
    Recorder.start, hrec, hmode]

/-- C6 witness: a manager created with `--record always` starts exactly one
auto-recording on `initSession`, and a repeated `initSession` still leaves
exactly one. -/
theorem initSession_single_auto_recording_witness :
    ((TerminalManager.create { record := some .always }).initSession
        0).recordingManager.activeCount = 1
    ∧ ((TerminalManager.create { record := some .always }).initSession
        0).autoRecordingId = some 0
    ∧ ((TerminalManager.create { record := some .always }).initSession 0).session
        = some (((TerminalManager.createSession { record := some .always }).onData
            .recordingFanOut).onResize .recordingFanOut)
    ∧ ((TerminalManager.create { record := some .always }).initSession
          0).recordingManager.recorders.map Recorder.state = [.recording]
    ∧ ((TerminalManager.create { record := some .always }).initSession
          0).recordingManager.recorders.map Recorder.header
        = [some { cols := (none : Option Nat).getD 120,
                  rows := (none : Option Nat).getD 40,
                  env := [("SHELL", match (none : Option String) with
                                    | some sh => some sh
                                    | none => (none : Option String)),
                          ("TERM", some "xterm-256color")],
                  startTime := 0 }]
    ∧ (((TerminalManager.create { record := some .always }).initSession
          0).initSession 1).recordingManager.activeCount = 1 :=
  initSession_single_auto_recording { record := some .always } .always 0 1 rfl
    (by decide)
